import Mathlib

/-!
Verification of the pgverify query-construction, result-aggregation and
orchestration logic against its design specification.

The repository holds several historical revisions of the same components.
Each Lean definition below names, in its doc comment, the source file (and
revision chunk) it embeds. Go slices become `List`, Go maps become
association lists (`List (key × value)`) iterated in insertion order, and
the external pgx database driver becomes an oracle structure (`Conn`)
mapping SQL query text to replies.
-/

namespace Pgverify

/-! ## String helpers (src/query.go lines 10-16) -/

/-- A character of the RE2 character class `\s` used by `reduceSpaceRegex`
(src/query.go line 10): tab, newline, form feed, carriage return, space. -/
def isReSpace (c : Char) : Bool :=
  c = ' ' || c = '\t' || c = '\n' || c = '\x0c' || c = '\r'

/-- A character trimmed by Go's `strings.TrimSpace` (ASCII part of
`unicode.IsSpace`): the RE2 class plus vertical tab. -/
def isGoSpace (c : Char) : Bool :=
  c = ' ' || c = '\t' || c = '\n' || c = '\x0b' || c = '\x0c' || c = '\r'

/-- `reduceSpaceRegex.ReplaceAllString(query, " ")`: every maximal run of
`\s` characters becomes one space. -/
def collapseRuns : List Char → List Char
  | [] => []
  | [c] => if isReSpace c then [' '] else [c]
  | c1 :: c2 :: rest =>
    if isReSpace c1 && isReSpace c2 then collapseRuns (c2 :: rest)
    else (if isReSpace c1 then ' ' else c1) :: collapseRuns (c2 :: rest)

/-- Drop matching characters from the end of a character list. -/
def dropTrailing (p : Char → Bool) (l : List Char) : List Char :=
  (l.reverse.dropWhile p).reverse

/-- `formatQuery` (src/query.go lines 12-16): collapse whitespace runs to a
single space, then trim leading and trailing whitespace. -/
def formatQuery (query : String) : String :=
  String.mk (dropTrailing isGoSpace ((collapseRuns query.data).dropWhile isGoSpace))

/-- Go's `strings.ToLower` for the ASCII data types compared here:
lowercase every character. -/
def goToLower (s : String) : String :=
  String.mk (s.data.map Char.toLower)

/-- Go's `strings.Join(elems, sep)`. -/
def joinStr (sep : String) : List String → String
  | [] => ""
  | [x] => x
  | x :: xs => x ++ sep ++ joinStr sep xs

/-- Go's `sort.Strings`: sort a string slice ascending. -/
def sortStrings (l : List String) : List String :=
  List.insertionSort (fun a b => a ≤ b) l

/-- `pat` occurs contiguously inside `s`. -/
def containsSubstr (s pat : String) : Prop :=
  pat.data <:+: s.data

instance (s pat : String) : Decidable (containsSubstr s pat) :=
  List.decidableInfix pat.data s.data

/-! ## Column model, current revision (src/unnamed/part_003) -/

/-- `column` (src/unnamed/part_003 lines 9-13): name, declared data type,
and the constraint labels discovery observed for the column. -/
structure column where
  name : String
  dataType : String
  constraints : List String
deriving DecidableEq, Repr

/-- `column.IsPrimaryKey` (src/unnamed/part_003 lines 17-25): true iff some
constraint label equals "PRIMARY KEY". -/
def column.IsPrimaryKey (c : column) : Bool :=
  c.constraints.any (fun constraintType => constraintType = "PRIMARY KEY")

/-- `column.CastToText` (src/unnamed/part_003 lines 29-37): for a
timestamp-with-timezone column, truncate to the precision unit, convert to
epoch seconds, scale by 1000000 and cast through BIGINT to TEXT; otherwise
cast the raw value to TEXT. -/
def column.CastToText (c : column) (precision : String) : String :=
  if goToLower c.dataType = "timestamp with time zone" then
    "(extract(epoch from date_trunc('" ++ precision ++ "', " ++ c.name ++
      "))::DECIMAL * 1000000)::BIGINT::TEXT"
  else
    c.name ++ "::TEXT"

/-! ## Configuration (src/config.go; the `TimestampPrecision` and
`HashPrimaryKeys` fields come from the revision of `Config` used by
src/query.go and src/query_test.go, whose struct declaration is not among
the repository chunks). -/

/-- Test mode names and defaults (src/config.go lines 9-28). -/
def TestModeFull : String := "full"

def TestModeBookend : String := "bookend"

def TestModeSparse : String := "sparse"

def TestModeRowCount : String := "rowcount"

def TestModeBookendDefaultLimit : Int := 1000

def TestModeSparseDefaultMod : Int := 10

/-- `Config` (src/config.go lines 31-55, plus the two query-builder fields
described above). The logger is omitted: no embedded code reads it. -/
structure Config where
  IncludeTables : List String := []
  ExcludeTables : List String := []
  IncludeSchemas : List String := []
  ExcludeSchemas : List String := []
  IncludeColumns : List String := []
  ExcludeColumns : List String := []
  TestModes : List String := []
  BookendLimit : Int := 0
  SparseMod : Int := 0
  Aliases : List String := []
  TimestampPrecision : String := ""
  HashPrimaryKeys : Bool := false
deriving DecidableEq, Repr

/-- `Config.Validate` (src/config.go lines 87-100): `none` when every test
mode is one of the four known modes, otherwise an error message. -/
def Config.Validate (c : Config) : Option String :=
  match c.TestModes.find? (fun mode =>
      !(mode = TestModeBookend || mode = TestModeFull ||
        mode = TestModeRowCount || mode = TestModeSparse)) with
  | some _ => some ("invalid strategy: [" ++ joinStr " " c.TestModes ++ "]")
  | none => none

/-! ## Query builders, current revision (src/query.go) -/

/-- The `'a', 'b', ...` list body built by the filter loops of
`buildGetTablesQuery` (src/query.go lines 27-33 and their three copies). -/
def quotedList (l : List String) : String :=
  joinStr ", " (l.map (fun s => "'" ++ s ++ "'"))

/-- One dimension of `buildGetTablesQuery`'s filter translation
(src/query.go lines 25-47 for schemas, 49-71 for tables): a non-empty
include list yields an IN clause and suppresses the exclude list; otherwise
a non-empty exclude list yields a NOT IN clause. -/
def filterClauses (columnName : String) (includeList excludeList : List String) : List String :=
  if includeList.length > 0 then [columnName ++ " IN (" ++ quotedList includeList ++ ")"]
  else if excludeList.length > 0 then [columnName ++ " NOT IN (" ++ quotedList excludeList ++ ")"]
  else []

/-- `buildGetTablesQuery` (src/query.go lines 21-78): table discovery with
include/exclude filters; include overrides exclude per dimension. -/
def buildGetTablesQuery (includeSchemas excludeSchemas includeTables excludeTables :
    List String) : String :=
  let whereClauses := ["table_type != 'VIEW'"] ++
    filterClauses "table_schema" includeSchemas excludeSchemas ++
    filterClauses "table_name" includeTables excludeTables
  formatQuery ("SELECT table_schema, table_name FROM information_schema.tables" ++
    (if whereClauses.length > 0 then " WHERE " ++ joinStr " AND " whereClauses else ""))

/-- `buildGetColumsQuery` (src/query.go lines 82-96): column discovery with
left-outer joins to key usage and table constraints. -/
def buildGetColumsQuery (schemaName tableName : String) : String :=
  formatQuery ("\n\t\tSELECT c.column_name, c.data_type, k.constraint_name, tc.constraint_type\n\t\tFROM information_schema.columns as c\n\t\t\tLEFT OUTER JOIN information_schema.key_column_usage as k ON (\n\t\t\t\tc.column_name = k.column_name AND\n\t\t\t\tc.table_name = k.table_name AND\n\t\t\t\tc.table_schema = k.table_schema\n\t\t\t)\n\t\t\tLEFT OUTER JOIN information_schema.table_constraints as tc ON (\n\t\t\t\tk.constraint_name = tc.constraint_name\n\t\t\t)\n\t\tWHERE c.table_name = '" ++ tableName ++ "' AND c.table_schema = '" ++ schemaName ++ "'\n\t\t")

/-- The sorted cast expressions of every column (src/query.go lines
101-114 and the same loop in the other builders). -/
def castsSorted (config : Config) (columns : List column) : List String :=
  sortStrings (columns.map (fun c => c.CastToText config.TimestampPrecision))

/-- The sorted cast expressions of the primary-key columns (src/query.go
lines 103-115 and the same loop in the other builders). -/
def pkCastsSorted (config : Config) (columns : List column) : List String :=
  sortStrings ((columns.filter (fun c => c.IsPrimaryKey)).map
    (fun c => c.CastToText config.TimestampPrecision))

/-- The ordering/bucketing expression of the Full and Bookend builders
(src/query.go lines 117-123, 185-191, 228-234): the CONCAT of the sorted
primary-key cast expressions, wrapped in MD5 when `HashPrimaryKeys` is
set. -/
def primaryColumnConcat (config : Config) (columns : List column) : String :=
  let primaryColumnConcatString := "CONCAT(" ++ joinStr ", " (pkCastsSorted config columns) ++ ")"
  if config.HashPrimaryKeys then "MD5(" ++ primaryColumnConcatString ++ ")"
  else primaryColumnConcatString

/-- `buildFullHashQuery` (src/query.go lines 100-136). -/
def buildFullHashQuery (config : Config) (schemaName tableName : String)
    (columns : List column) : String :=
  formatQuery ("\n\t\tSELECT md5(string_agg(hash, ''))\n\t\tFROM (\n\t\t\tSELECT MD5(CONCAT(" ++
    joinStr ", " (castsSorted config columns) ++
    ")) AS hash\n\t\t\tFROM \"" ++ schemaName ++ "\".\"" ++ tableName ++
    "\"\n\t\t\tORDER BY " ++ primaryColumnConcat config columns ++ "\n\t\t) as eachhash\n\t\t")

/-- One membership condition of `buildSparseHashQuery`'s WHERE clause
(src/query.go lines 164-181): rows whose primary-key hash, reduced to a
64-bit integer, is congruent to 0 modulo `sparseMod`. -/
def sparseWhenClause (schemaName tableName pkCastsString : String) (sparseMod : Int)
    (pkeyName : String) : String :=
  " " ++ pkeyName ++ " in (\n\t\t\t\t\tSELECT " ++ pkeyName ++
    "\n\t\t\t\t\tFROM \"" ++ schemaName ++ "\".\"" ++ tableName ++
    "\"\n\t\t\t\t\tWHERE ('x' || substr(md5(CONCAT(" ++ pkCastsString ++
    ")),1,16))::bit(64)::bigint % " ++ toString sparseMod ++ " = 0\n\t\t\t\t)"

/-- The sorted primary-key column names of `buildSparseHashQuery`
(src/query.go lines 146-160). -/
def pkNamesSorted (columns : List column) : List String :=
  sortStrings ((columns.filter (fun c => c.IsPrimaryKey)).map (fun c => c.name))

/-- `buildSparseHashQuery` (src/query.go lines 141-207). -/
def buildSparseHashQuery (config : Config) (schemaName tableName : String)
    (columns : List column) (sparseMod : Int) : String :=
  let primaryKeyNamesWithCastingString := joinStr ", " (pkCastsSorted config columns)
  let whenClausesString := joinStr " AND " ((pkNamesSorted columns).map
    (sparseWhenClause schemaName tableName primaryKeyNamesWithCastingString sparseMod))
  formatQuery ("\n\t\tSELECT md5(string_agg(hash, ''))\n\t\tFROM (\n\t\t\tSELECT MD5(CONCAT(" ++
    joinStr ", " (castsSorted config columns) ++
    ")) AS hash\n\t\t\tFROM \"" ++ schemaName ++ "\".\"" ++ tableName ++
    "\"\n\t\t\tWHERE " ++ whenClausesString ++
    "\n\t\t\tORDER BY " ++ primaryColumnConcat config columns ++ "\n\t\t) AS eachrow\n\t\t")

/-- `buildBookendHashQuery` (src/query.go lines 210-256). -/
def buildBookendHashQuery (config : Config) (schemaName tableName : String)
    (columns : List column) (limit : Int) : String :=
  let allColumnsWithCasting := joinStr ", " (castsSorted config columns)
  let allPrimaryColumnsConcatString := primaryColumnConcat config columns
  formatQuery ("\n\t\t\t\tSELECT md5(CONCAT(starthash::TEXT, endhash::TEXT))\n\t\t\t\tFROM (\n\t\t\t\t\tSELECT md5(string_agg(hash, ''))\n\t\t\t\t\tFROM (\n\t\t\t\t\t\tSELECT MD5(CONCAT(" ++
    allColumnsWithCasting ++ ")) AS hash\n\t\t\t\t\t\tFROM \"" ++ schemaName ++ "\".\"" ++
    tableName ++ "\"\n\t\t\t\t\t\tORDER BY " ++ allPrimaryColumnsConcatString ++
    " ASC\n\t\t\t\t\t\tLIMIT " ++ toString limit ++
    "\n\t\t\t\t\t) AS eachrow\n\t\t\t\t) as starthash, (\n\t\t\t\t\tSELECT md5(string_agg(hash, ''))\n\t\t\t\t\tFROM (\n\t\t\t\t\t\tSELECT MD5(CONCAT(" ++
    allColumnsWithCasting ++ ")) AS hash\n\t\t\t\t\t\tFROM \"" ++ schemaName ++ "\".\"" ++
    tableName ++ "\"\n\t\t\t\t\t\tORDER BY " ++ allPrimaryColumnsConcatString ++
    " DESC\n\t\t\t\t\t\tLIMIT " ++ toString limit ++
    "\n\t\t\t\t\t) AS eachrow\n\t\t\t\t) as endhash\n\t\t\t\t")

/-- `buildRowCountQuery` (src/query.go lines 259-261). -/
def buildRowCountQuery (schemaName tableName : String) : String :=
  formatQuery ("SELECT count(*)::TEXT FROM \"" ++ schemaName ++ "\".\"" ++ tableName ++ "\"")

/-! ## Column model and query builders of the orchestrator's revision.

The orchestrator embedded below (src/log.go lines 515-681) constructs
columns from three scanned strings and calls three- and four-argument
builders; those match the `column` of src/verify.go lines 380-404 /
src/unnamed/part_012 and the builders of src/unnamed/part_006 lines 1-167,
which are embedded here with a `V1` suffix. -/

/-- `column` of that revision (src/verify.go lines 380-384): a single
constraint name string. -/
structure columnV1 where
  name : String
  dataType : String
  constraint : String
deriving DecidableEq, Repr

/-- `column.IsPrimaryKey` (src/verify.go lines 388-393): the constraint
name is "primary" or ends in "_pkey". -/
def columnV1.IsPrimaryKey (c : columnV1) : Bool :=
  c.constraint = "primary" || c.constraint.endsWith "_pkey"

/-- `column.CastToText` (src/verify.go lines 397-404). -/
def columnV1.CastToText (c : columnV1) : String :=
  if goToLower c.dataType = "timestamp with time zone" then
    "extract(epoch from " ++ c.name ++ ")::TEXT"
  else
    c.name ++ "::TEXT"

/-- `buildGetColumsQuery` (src/unnamed/part_006 lines 68-79): three
selected columns, no constraint-type join, no formatQuery. -/
def buildGetColumsQueryV1 (schemaName tableName : String) : String :=
  "\n\t\tSELECT c.column_name, c.data_type, k.constraint_name\n\t\tFROM information_schema.columns as c\n\t\t\tLEFT OUTER JOIN information_schema.key_column_usage as k ON (\n\t\t\t\tc.column_name = k.column_name AND\n\t\t\t\tc.table_name = k.table_name AND\n\t\t\t\tc.table_schema = k.table_schema\n\t\t\t)\n\t\tWHERE c.table_name = '" ++ tableName ++ "' AND c.table_schema = '" ++ schemaName ++ "'\n\t\t"

/-- `buildFullHashQuery` (src/unnamed/part_006 lines 83-94): no sorting,
no primary-key ordering, no formatQuery. -/
def buildFullHashQueryV1 (schemaName tableName : String) (columns : List columnV1) : String :=
  "\n\t\tSELECT md5(string_agg(hash, ''))\n\t\tFROM (SELECT '' AS grouper, MD5(CONCAT(" ++
    joinStr ", " (columns.map columnV1.CastToText) ++
    ")) AS hash FROM \"" ++ schemaName ++ "\".\"" ++ tableName ++
    "\" ORDER BY 2) AS eachrow\n\t\tGROUP BY grouper\n\t\t"

/-- `buildSparseHashQuery` (src/unnamed/part_006 lines 99-130): the loop
keeps the LAST primary-key column it sees (`primaryKey = column`); with no
primary key it is the zero-valued column (empty name). -/
def buildSparseHashQueryV1 (schemaName tableName : String) (columns : List columnV1)
    (sparseMod : Int) : String :=
  let primaryKey := (columns.filter (fun c => c.IsPrimaryKey)).getLastD (columnV1.mk "" "" "")
  "\n\t\tSELECT md5(string_agg(hash, ''))\n\t\tFROM (\n\t\t\tSELECT '' AS grouper, MD5(CONCAT(" ++
    joinStr ", " (columns.map columnV1.CastToText) ++
    ")) AS hash\n\t\t\tFROM \"" ++ schemaName ++ "\".\"" ++ tableName ++
    "\"\n\t\t\tWHERE " ++ primaryKey.name ++ " in (\n\t\t\t\tSELECT " ++ primaryKey.name ++
    "\n\t\t\t\tFROM \"" ++ schemaName ++ "\".\"" ++ tableName ++
    "\"\n\t\t\t\tWHERE ('x' || substr(md5(" ++ primaryKey.CastToText ++
    "),1,16))::bit(64)::bigint % " ++ toString sparseMod ++
    " = 0\n\t\t\t)\n\t\t\tORDER BY 2\n\t\t) AS eachrow\n\t\tGROUP BY grouper\n\t\t"

/-- `buildBookendHashQuery` (src/unnamed/part_006 lines 133-162). -/
def buildBookendHashQueryV1 (schemaName tableName : String) (columns : List columnV1)
    (limit : Int) : String :=
  let allColumnsWithCasting := joinStr ", " (columns.map columnV1.CastToText)
  "\n\t\tSELECT md5(CONCAT(starthash::TEXT, endhash::TEXT))\n\t\tFROM (\n\t\t\tSELECT md5(string_agg(hash, ''))\n\t\t\tFROM (\n\t\t\t\tSELECT '' AS grouper, MD5(CONCAT(" ++
    allColumnsWithCasting ++ ")) AS hash\n\t\t\t\tFROM \"" ++ schemaName ++ "\".\"" ++
    tableName ++ "\"\n\t\t\t\tORDER BY 2 ASC\n\t\t\t\tLIMIT " ++ toString limit ++
    "\n\t\t\t) AS eachrow\n\t\t\tGROUP BY grouper\n\t\t) as starthash, (\n\t\t\tSELECT md5(string_agg(hash, ''))\n\t\t\tFROM (\n\t\t\t\tSELECT '' AS grouper, MD5(CONCAT(" ++
    allColumnsWithCasting ++ ")) AS hash\n\t\t\t\tFROM \"" ++ schemaName ++ "\".\"" ++
    tableName ++ "\"\n\t\t\t\tORDER BY 2 DESC\n\t\t\t\tLIMIT " ++ toString limit ++
    "\n\t\t\t) AS eachrow\n\t\t\tGROUP BY grouper\n\t\t) as endhash\n\t\t"

/-- `buildRowCountQuery` (src/unnamed/part_006 lines 165-167). -/
def buildRowCountQueryV1 (schemaName tableName : String) : String :=
  "SELECT count(*)::TEXT FROM \"" ++ schemaName ++ "\".\"" ++ tableName ++ "\""

/-! ## Association-list helpers modelling Go map access in insertion
order. -/

/-- Look a key up in an association list. -/
def lookupA {β : Type} (l : List (String × β)) (k : String) : Option β :=
  (l.find? (fun p => p.1 = k)).map Prod.snd

/-- Set a key in an association list: replace the first binding in place,
or append a new one. -/
def setA {β : Type} (l : List (String × β)) (k : String) (v : β) : List (String × β) :=
  match l with
  | [] => [(k, v)]
  | (k2, v2) :: rest => if k2 = k then (k, v) :: rest else (k2, v2) :: setA rest k v

/-- Fetch a key's value with a default for a missing key (a Go map read of
a missing key yields the zero value). -/
def getA {β : Type} (l : List (String × β)) (k : String) (d : β) : β :=
  (lookupA l k).getD d

/-- Transform a key's value, starting from the default when missing (the
`if !ok make(...)` then write idiom). -/
def updateA {β : Type} (l : List (String × β)) (k : String) (d : β) (f : β → β) :
    List (String × β) :=
  setA l k (f (getA l k d))

/-! ## Result aggregation, current revision (src/unnamed/part_013). -/

/-- `defaultErrorOutput` (src/unnamed/part_013 line 12). -/
def defaultErrorOutput : String := "(err)"

/-- `SingleResult` (src/unnamed/part_013 line 43):
result[schema][table][mode] = test output. -/
abbrev SingleResult : Type := List (String × List (String × List (String × String)))

/-- The type of `Results.content` (src/unnamed/part_013 line 24):
content[schema][table][mode][output] = target-name list. -/
abbrev ContentMap : Type :=
  List (String × List (String × List (String × List (String × List String))))

/-- `Results` (src/unnamed/part_013 lines 16-28); the mutex guards the
concurrent merges and carries no data. -/
structure Results where
  targetNames : List String
  testModes : List String
  content : ContentMap

/-- The innermost write of `AddResult` (src/unnamed/part_013 lines 50-67):
append `targetName` to content[schema][table][mode][output], creating the
intermediate maps when missing. -/
def addCell (content : ContentMap) (schema table mode output targetName : String) :
    ContentMap :=
  updateA content schema [] (fun tables =>
    updateA tables table [] (fun modes =>
      updateA modes mode [] (fun outputs =>
        updateA outputs output [] (fun targets => targets ++ [targetName]))))

/-- `Results.AddResult` (src/unnamed/part_013 lines 46-69). -/
def Results.AddResult (r : Results) (targetName : String) (schemaTableHashes : SingleResult) :
    Results :=
  { r with content := schemaTableHashes.foldl (fun content st =>
      st.2.foldl (fun content tm =>
        tm.2.foldl (fun content mo =>
          addCell content st.1 tm.1 mo.1 mo.2 targetName) content) content) r.content }

/-- The divergence error text (src/unnamed/part_013 line 79). -/
def divergenceMsg (schema table mode : String) (n : Nat) : String :=
  schema ++ "." ++ table ++ " test " ++ mode ++ " has " ++ toString n ++ " outputs"

/-- The incomplete-target-count error text (src/unnamed/part_013 line 86). -/
def targetCountMsg (schema table mode : String) (got want : Nat) : String :=
  schema ++ "." ++ table ++ " test " ++ mode ++ " has " ++ toString got ++
    " targets (should be " ++ toString want ++ ")"

/-- The error-sentinel error text (src/unnamed/part_013 line 90). -/
def errorOutputMsg (schema table mode : String) : String :=
  schema ++ "." ++ table ++ " test " ++ mode ++ " has error output"

/-- `Results.CheckForErrors` (src/unnamed/part_013 lines 72-98): per
(schema, table, mode) cell, a single divergence error when more than one
distinct output exists (the `continue` skips the per-output checks),
otherwise a target-count error per mismatched output and an error-output
error per sentinel output; all collected into one list. -/
def Results.CheckForErrors (r : Results) : List String :=
  (r.content.map (fun st =>
    (st.2.map (fun tm =>
      (tm.2.map (fun mo =>
        if mo.2.length > 1 then [divergenceMsg st.1 tm.1 mo.1 mo.2.length]
        else (mo.2.map (fun ot =>
          (if ot.2.length ≠ r.targetNames.length then
            [targetCountMsg st.1 tm.1 mo.1 ot.2.length r.targetNames.length] else []) ++
          (if ot.1 = defaultErrorOutput then [errorOutputMsg st.1 tm.1 mo.1] else []))).flatten)).flatten)).flatten)).flatten

/-! ## Orchestrator (src/log.go lines 515-681).

The external pgx connection is modelled as an oracle keyed by the SQL
text the orchestrator sends: `query2` answers the two-column table
discovery query, `query3` the three-column column discovery query (each
row is `Except Unit` to model a per-row `Scan` failure), and `queryRow`
the single-scalar fingerprint queries. -/

/-- The outcome of `row.Scan` on a fingerprint query (src/log.go lines
661-674): a scanned value, `pgx.ErrNoRows`, or another error. -/
inductive ScanResult where
  | ok (value : String)
  | noRows
  | fail
deriving DecidableEq, Repr

/-- The oracle for one open target connection. -/
structure Conn where
  query2 : String → Except Unit (List (Except Unit (String × String)))
  query3 : String → Except Unit (List (Except Unit (String × String × String)))
  queryRow : String → ScanResult

/-- The fresh mode map of one discovered table (src/log.go lines 617-620):
every configured test mode bound to the error sentinel. -/
def initModes (c : Config) : List (String × String) :=
  c.TestModes.map (fun testMode => (testMode, defaultErrorOutput))

/-- The `rows.Next()` loop of `fetchTargetTableNames` (src/log.go lines
608-621): build up the per-target map, stopping with an error flag on the
first row whose scan fails. -/
def fetchRows (c : Config) : List (Except Unit (String × String)) → SingleResult →
    SingleResult × Bool
  | [], acc => (acc, false)
  | .error _ :: _, acc => (acc, true)
  | .ok (schema, table) :: rest, acc =>
    fetchRows c rest (updateA acc schema [] (fun tables => setA tables table (initModes c)))

/-- `fetchTargetTableNames` (src/log.go lines 602-623): discover the
(schema, table) pairs and initialise every test-mode cell to the error
sentinel; the Bool is the non-nil error return. -/
def fetchTargetTableNames (c : Config) (conn : Conn) : SingleResult × Bool :=
  match conn.query2 (buildGetTablesQuery c.IncludeSchemas c.ExcludeSchemas
      c.IncludeTables c.ExcludeTables) with
  | .error _ => ([], true)
  | .ok rows => fetchRows c rows []

/-- The `switch testMode` of `runTestQueriesOnTarget` (src/log.go lines
650-659): the fingerprint query for one mode (an unknown mode leaves the
query string empty). -/
def queryForMode (c : Config) (schemaName tableName : String)
    (tableColumns : List columnV1) (testMode : String) : String :=
  if testMode = TestModeFull then buildFullHashQueryV1 schemaName tableName tableColumns
  else if testMode = TestModeBookend then
    buildBookendHashQueryV1 schemaName tableName tableColumns c.BookendLimit
  else if testMode = TestModeSparse then
    buildSparseHashQueryV1 schemaName tableName tableColumns c.SparseMod
  else if testMode = TestModeRowCount then buildRowCountQueryV1 schemaName tableName
  else ""

/-- The per-mode loop of `runTestQueriesOnTarget` (src/log.go lines
647-677): execute each mode's query and overwrite the cell on a scanned
value or on the "no rows" sentinel; any other error keeps the cell as
initialised. -/
def applyModes (conn : Conn) (c : Config) (schemaName tableName : String)
    (tableColumns : List columnV1) :
    List String → List (String × String) → List (String × String)
  | [], modes => modes
  | testMode :: rest, modes =>
    let modes2 := match conn.queryRow (queryForMode c schemaName tableName tableColumns testMode) with
      | .ok value => setA modes testMode value
      | .noRows => setA modes testMode "no rows"
      | .fail => modes
    applyModes conn c schemaName tableName tableColumns rest modes2

/-- The columns parsed from the column-discovery rows (src/log.go lines
636-644): a row whose scan fails is skipped, the rest become columns from
(column_name, data_type, constraint_name). -/
def parseColumns (rows : List (Except Unit (String × String × String))) : List columnV1 :=
  rows.filterMap (fun row => match row with
    | .ok (n, d, con) => some (columnV1.mk n d con)
    | .error _ => none)

/-- `runTestQueriesOnTarget` (src/log.go lines 625-681): for every
discovered table, discover columns (a failure leaves the table's cells as
initialised) and run every configured mode's fingerprint query. -/
def runTestQueriesOnTarget (c : Config) (conn : Conn) (schemaTableHashes : SingleResult) :
    SingleResult :=
  schemaTableHashes.map (fun st => (st.1, st.2.map (fun tm =>
    match conn.query3 (buildGetColumsQueryV1 st.1 tm.1) with
    | .error _ => tm
    | .ok rows => (tm.1, applyModes conn c st.1 tm.1 (parseColumns rows) c.TestModes tm.2))))

/-- The SQL text handed to `conn.QueryRow` during
`runTestQueriesOnTarget`, in traversal order: one query per configured
mode for every table whose column discovery succeeded. -/
def fingerprintQueriesRun (c : Config) (conn : Conn) (schemaTableHashes : SingleResult) :
    List String :=
  (schemaTableHashes.map (fun st =>
    (st.2.map (fun tm =>
      match conn.query3 (buildGetColumsQueryV1 st.1 tm.1) with
      | .error _ => []
      | .ok rows => c.TestModes.map (queryForMode c st.1 tm.1 (parseColumns rows)))).flatten)).flatten

/-- `runTestsOnTarget` (src/log.go lines 580-600) without the merge: the
SingleResult contributed by one target, or `none` when table discovery
failed and the branch terminated early. -/
def targetBranch (c : Config) (conn : Conn) : Option SingleResult :=
  match fetchTargetTableNames c conn with
  | (_, true) => none
  | (schemaTableHashes, false) => some (runTestQueriesOnTarget c conn schemaTableHashes)

/-- One target of a `Verify` call: its host address and its connection
oracle (`none` models a connect failure). -/
structure TargetModel where
  host : String
  conn : Option Conn

/-- The error surface of `Verify` (src/log.go lines 533-578): a
validation error, a connect error (with the failing target's index), or
the combined report errors. -/
inductive VError where
  | validation (msg : String)
  | connect (idx : Nat)
  | reports (errs : List String)

/-- The target-name resolution of `Config.Verify` (src/log.go lines
544-549): the alias of matching index when the alias count equals the
target count, else the target's host. -/
def resolveTargetNames (c : Config) (targets : List TargetModel) : List String :=
  if c.Aliases.length = targets.length then c.Aliases
  else targets.map (fun t => t.host)

/-- The merge loop of `Config.Verify` (src/log.go lines 560-568 with
lines 580-600): run every target's branch and `AddResult` each completed
SingleResult into the shared Results. -/
def mergeTargetResults (c : Config) (targets : List TargetModel) : Results :=
  ((resolveTargetNames c targets).zip targets).foldl (fun r tnt =>
    match tnt.2.conn with
    | none => r
    | some conn =>
      match targetBranch c conn with
      | none => r
      | some schemaTableHashes => r.AddResult tnt.1 schemaTableHashes)
    (Results.mk (resolveTargetNames c targets) c.TestModes [])

/-- `Config.Verify` (src/log.go lines 533-578): validate, resolve target
names, connect to every target (the first failure aborts with a nil
Results), run every target's branch and merge the completed
SingleResults, then return the populated Results together with the
combined `CheckForErrors` output when it is non-empty. -/
def Config.Verify (c : Config) (targets : List TargetModel) : Option Results × Option VError :=
  match c.Validate with
  | some msg => (none, some (.validation msg))
  | none =>
    match targets.findIdx? (fun t => t.conn.isNone) with
    | some i => (none, some (.connect i))
    | none =>
      let finalResults := mergeTargetResults c targets
      let reportErrors := finalResults.CheckForErrors
      if reportErrors.length > 0 then (some finalResults, some (.reports reportErrors))
      else (some finalResults, none)

/-! ## Shared lemmas -/

/-- Sorting with `sortStrings` identifies permutations: two lists that are
permutations of each other sort to the same list. -/
theorem sortStrings_perm {l l2 : List String} (h : l.Perm l2) : sortStrings l = sortStrings l2 :=
  List.eq_of_perm_of_sorted
    ((List.perm_insertionSort _ l).trans (h.trans (List.perm_insertionSort _ l2).symm))
    (List.sorted_insertionSort _ l) (List.sorted_insertionSort _ l2)

theorem castsSorted_perm (config : Config) {cs cs2 : List column} (h : cs.Perm cs2) :
    castsSorted config cs = castsSorted config cs2 :=
  sortStrings_perm (h.map _)

theorem pkCastsSorted_perm (config : Config) {cs cs2 : List column} (h : cs.Perm cs2) :
    pkCastsSorted config cs = pkCastsSorted config cs2 :=
  sortStrings_perm ((h.filter _).map _)

theorem pkNamesSorted_perm {cs cs2 : List column} (h : cs.Perm cs2) :
    pkNamesSorted cs = pkNamesSorted cs2 :=
  sortStrings_perm ((h.filter _).map _)

/-- A non-empty include list always produces exactly the IN clause. -/
theorem filterClauses_of_include {includeList : List String} (columnName : String)
    (excludeList : List String) (h : includeList ≠ []) :
    filterClauses columnName includeList excludeList =
      [columnName ++ " IN (" ++ quotedList includeList ++ ")"] := by
  simp [filterClauses, List.length_pos.mpr h]

/-- With an empty include list, a non-empty exclude list produces exactly
the NOT IN clause. -/
theorem filterClauses_of_exclude {excludeList : List String} (columnName : String)
    (h : excludeList ≠ []) :
    filterClauses columnName [] excludeList =
      [columnName ++ " NOT IN (" ++ quotedList excludeList ++ ")"] := by
  simp [filterClauses, List.length_pos.mpr h]

/-! ## Claims -/

/-- C1: for every configuration, schema name, table name and mode-specific
parameter, the three fingerprint builders return byte-identical SQL text
for any two permutations of the same column list, because the column
cast-expressions and (independently) the primary-key cast-expressions and
names are sorted before concatenation. -/
theorem C1_builders_invariant_under_column_permutation (config : Config)
    (schemaName tableName : String) (sparseMod limit : Int)
    {columns columns2 : List column} (hperm : columns.Perm columns2) :
    buildFullHashQuery config schemaName tableName columns =
      buildFullHashQuery config schemaName tableName columns2 ∧
    buildSparseHashQuery config schemaName tableName columns sparseMod =
      buildSparseHashQuery config schemaName tableName columns2 sparseMod ∧
    buildBookendHashQuery config schemaName tableName columns limit =
      buildBookendHashQuery config schemaName tableName columns2 limit := by
  refine ⟨?_, ?_, ?_⟩ <;>
    simp only [buildFullHashQuery, buildSparseHashQuery, buildBookendHashQuery,
      primaryColumnConcat, castsSorted_perm config hperm, pkCastsSorted_perm config hperm,
      pkNamesSorted_perm hperm]

/-- C1 witness: the builders agree on a concrete two-column list and its
reversal. -/
theorem C1_witness :
    ([column.mk "id" "uuid" ["PRIMARY KEY"], column.mk "content" "text" []].Perm
      [column.mk "content" "text" [], column.mk "id" "uuid" ["PRIMARY KEY"]]) ∧
    (buildFullHashQuery (Config.mk [] [] [] [] [] [] [] 0 0 [] "milliseconds" false)
        "s" "t" [column.mk "id" "uuid" ["PRIMARY KEY"], column.mk "content" "text" []] =
      buildFullHashQuery (Config.mk [] [] [] [] [] [] [] 0 0 [] "milliseconds" false)
        "s" "t" [column.mk "content" "text" [], column.mk "id" "uuid" ["PRIMARY KEY"]] ∧
    buildSparseHashQuery (Config.mk [] [] [] [] [] [] [] 0 0 [] "milliseconds" false)
        "s" "t" [column.mk "id" "uuid" ["PRIMARY KEY"], column.mk "content" "text" []] 10 =
      buildSparseHashQuery (Config.mk [] [] [] [] [] [] [] 0 0 [] "milliseconds" false)
        "s" "t" [column.mk "content" "text" [], column.mk "id" "uuid" ["PRIMARY KEY"]] 10 ∧
    buildBookendHashQuery (Config.mk [] [] [] [] [] [] [] 0 0 [] "milliseconds" false)
        "s" "t" [column.mk "id" "uuid" ["PRIMARY KEY"], column.mk "content" "text" []] 5 =
      buildBookendHashQuery (Config.mk [] [] [] [] [] [] [] 0 0 [] "milliseconds" false)
        "s" "t" [column.mk "content" "text" [], column.mk "id" "uuid" ["PRIMARY KEY"]] 5) :=
  ⟨by decide, C1_builders_invariant_under_column_permutation _ "s" "t" 10 5 (by decide)⟩

/-- C2: when the include list of a dimension (schema or table) is
non-empty, the discovery query keeps exactly that dimension's IN clause,
omits its NOT IN clause, and the exclude list of that dimension has no
effect on the output. -/
theorem C2_include_filter_suppresses_exclude
    (includeSchemas excludeSchemas includeTables excludeTables : List String) :
    (includeSchemas ≠ [] →
      filterClauses "table_schema" includeSchemas excludeSchemas =
        ["table_schema IN (" ++ quotedList includeSchemas ++ ")"] ∧
      buildGetTablesQuery includeSchemas excludeSchemas includeTables excludeTables =
        buildGetTablesQuery includeSchemas [] includeTables excludeTables) ∧
    (includeTables ≠ [] →
      filterClauses "table_name" includeTables excludeTables =
        ["table_name IN (" ++ quotedList includeTables ++ ")"] ∧
      buildGetTablesQuery includeSchemas excludeSchemas includeTables excludeTables =
        buildGetTablesQuery includeSchemas excludeSchemas includeTables []) := by
  constructor
  · intro h
    refine ⟨filterClauses_of_include _ _ h, ?_⟩
    simp only [buildGetTablesQuery, filterClauses_of_include _ _ h,
      filterClauses_of_include _ ([] : List String) h]
  · intro h
    refine ⟨filterClauses_of_include _ _ h, ?_⟩
    simp only [buildGetTablesQuery, filterClauses_of_include _ _ h,
      filterClauses_of_include _ ([] : List String) h]

/-- C2 witness: with both lists supplied for both dimensions, the exclude
lists are ignored. -/
theorem C2_witness :
    ((["a"] : List String) ≠ [] →
      filterClauses "table_schema" ["a"] ["b"] = ["table_schema IN (" ++ quotedList ["a"] ++ ")"] ∧
      buildGetTablesQuery ["a"] ["b"] ["t1"] ["t2"] = buildGetTablesQuery ["a"] [] ["t1"] ["t2"]) ∧
    ((["t1"] : List String) ≠ [] →
      filterClauses "table_name" ["t1"] ["t2"] = ["table_name IN (" ++ quotedList ["t1"] ++ ")"] ∧
      buildGetTablesQuery ["a"] ["b"] ["t1"] ["t2"] = buildGetTablesQuery ["a"] ["b"] ["t1"] []) :=
  C2_include_filter_suppresses_exclude ["a"] ["b"] ["t1"] ["t2"]

set_option maxRecDepth 10000 in
/-- C3 counterexample: with both a non-empty include list and a non-empty
exclude list for the schema dimension, the exclude list does NOT override
the include list: the query equals the query built with no exclusions, it
keeps the IN clause and holds no NOT IN clause at all. -/
theorem C3_counterexample_exclude_has_no_effect :
    buildGetTablesQuery ["a"] ["b"] [] [] =
      "SELECT table_schema, table_name FROM information_schema.tables WHERE table_type != 'VIEW' AND table_schema IN ('a')" ∧
    buildGetTablesQuery ["a"] ["b"] [] [] = buildGetTablesQuery ["a"] [] [] [] ∧
    ¬ containsSubstr (buildGetTablesQuery ["a"] ["b"] [] []) "NOT IN" := by
  refine ⟨by rfl, by rfl, by decide⟩

/-- C3 (amended): exclusions take effect in the table-discovery query only
when the include list of the same dimension is empty; a non-empty include
list makes the same-dimension exclude list ignored. -/
theorem C3_amended_exclude_applies_only_without_include
    (includeSchemas excludeSchemas includeTables excludeTables : List String) :
    (includeSchemas = [] → excludeSchemas ≠ [] →
      filterClauses "table_schema" includeSchemas excludeSchemas =
        ["table_schema NOT IN (" ++ quotedList excludeSchemas ++ ")"]) ∧
    (includeSchemas ≠ [] →
      buildGetTablesQuery includeSchemas excludeSchemas includeTables excludeTables =
        buildGetTablesQuery includeSchemas [] includeTables excludeTables) ∧
    (includeTables = [] → excludeTables ≠ [] →
      filterClauses "table_name" includeTables excludeTables =
        ["table_name NOT IN (" ++ quotedList excludeTables ++ ")"]) ∧
    (includeTables ≠ [] →
      buildGetTablesQuery includeSchemas excludeSchemas includeTables excludeTables =
        buildGetTablesQuery includeSchemas excludeSchemas includeTables []) := by
  refine ⟨?_, ?_, ?_, ?_⟩
  · rintro rfl h
    exact filterClauses_of_exclude _ h
  · intro h
    simp only [buildGetTablesQuery, filterClauses_of_include _ _ h,
      filterClauses_of_include _ ([] : List String) h]
  · rintro rfl h
    exact filterClauses_of_exclude _ h
  · intro h
    simp only [buildGetTablesQuery, filterClauses_of_include _ _ h,
      filterClauses_of_include _ ([] : List String) h]

/-- C3 amended witness at concrete filter lists. -/
theorem C3_amended_witness :
    ((["a"] : List String) = [] → (["b"] : List String) ≠ [] →
      filterClauses "table_schema" ["a"] ["b"] = ["table_schema NOT IN (" ++ quotedList ["b"] ++ ")"]) ∧
    ((["a"] : List String) ≠ [] →
      buildGetTablesQuery ["a"] ["b"] [] ["t2"] = buildGetTablesQuery ["a"] [] [] ["t2"]) ∧
    (([] : List String) = [] → (["t2"] : List String) ≠ [] →
      filterClauses "table_name" [] ["t2"] = ["table_name NOT IN (" ++ quotedList ["t2"] ++ ")"]) ∧
    (([] : List String) ≠ [] →
      buildGetTablesQuery ["a"] ["b"] [] ["t2"] = buildGetTablesQuery ["a"] ["b"] [] []) :=
  C3_amended_exclude_applies_only_without_include ["a"] ["b"] [] ["t2"]

/-- C8: `CastToText` maps a timestamp-with-timezone column to the
truncate/epoch/scale-by-1000000/BIGINT/TEXT cast chain with the configured
precision, and any other declared type to a direct TEXT cast. -/
theorem C8_cast_to_text_shape (c : column) (precision : String) :
    (goToLower c.dataType = "timestamp with time zone" →
      c.CastToText precision =
        "(extract(epoch from date_trunc('" ++ precision ++ "', " ++ c.name ++
          "))::DECIMAL * 1000000)::BIGINT::TEXT") ∧
    (goToLower c.dataType ≠ "timestamp with time zone" →
      c.CastToText precision = c.name ++ "::TEXT") := by
  constructor <;> intro h <;> simp [column.CastToText, h]

/-- C8 witness at a timestamp column and an integer column. -/
theorem C8_witness :
    ((column.mk "when" "timestamp with time zone" []).CastToText "milliseconds" =
      "(extract(epoch from date_trunc('milliseconds', when))::DECIMAL * 1000000)::BIGINT::TEXT") ∧
    ((column.mk "id" "integer" []).CastToText "milliseconds" = "id::TEXT") :=
  ⟨(C8_cast_to_text_shape (column.mk "when" "timestamp with time zone" []) "milliseconds").1
      (by decide),
    (C8_cast_to_text_shape (column.mk "id" "integer" []) "milliseconds").2 (by decide)⟩

/-- An element of a joined list splits the join into prefix, element,
suffix. -/
theorem joinStr_mem_decomp {a : String} (sep : String) {l : List String} (h : a ∈ l) :
    ∃ pre post : String, joinStr sep l = pre ++ a ++ post := by
  induction l with
  | nil => cases h
  | cons x xs ih =>
    rcases List.mem_cons.mp h with rfl | hmem
    · cases xs with
      | nil => exact ⟨"", "", by simp [joinStr]⟩
      | cons y ys =>
        exact ⟨"", sep ++ joinStr sep (y :: ys), by
          simp [joinStr, String.append_assoc]⟩
    · have hne : xs ≠ [] := List.ne_nil_of_mem hmem
      obtain ⟨pre, post, hj⟩ := ih hmem
      cases xs with
      | nil => cases hne rfl
      | cons y ys =>
        refine ⟨x ++ sep ++ pre, post, ?_⟩
        show x ++ sep ++ joinStr sep (y :: ys) = x ++ sep ++ pre ++ a ++ post
        rw [hj]
        simp [String.append_assoc]

/-- A decomposition into prefix, pattern, suffix is a substring
occurrence. -/
theorem containsSubstr_of_decomp {s pre a post : String} (h : s = pre ++ a ++ post) :
    containsSubstr s a := by
  subst h
  exact ⟨pre.data, post.data, by simp [String.data_append]⟩

/-- Substring occurrences survive surrounding text. -/
theorem containsSubstr_within {s a : String} (w z : String) (h : containsSubstr s a) :
    containsSubstr (w ++ s ++ z) a := by
  refine h.trans ?_
  exact ⟨w.data, z.data, by simp [String.data_append]⟩

/-- Membership is preserved by `sortStrings`. -/
theorem mem_sortStrings {a : String} {l : List String} (h : a ∈ l) : a ∈ sortStrings l := by
  rw [sortStrings, List.mem_insertionSort]
  exact h

/-- A primary-key column's cast expression is among the sorted primary-key
cast expressions. -/
theorem mem_pkCastsSorted (config : Config) {c : column} {columns : List column}
    (hc : c ∈ columns) (hpk : c.IsPrimaryKey) :
    c.CastToText config.TimestampPrecision ∈ pkCastsSorted config columns := by
  apply mem_sortStrings
  exact List.mem_map_of_mem _ (List.mem_filter.mpr ⟨hc, hpk⟩)

/-- A primary-key column's name is among the sorted primary-key names. -/
theorem mem_pkNamesSorted {c : column} {columns : List column}
    (hc : c ∈ columns) (hpk : c.IsPrimaryKey) :
    c.name ∈ pkNamesSorted columns := by
  apply mem_sortStrings
  exact List.mem_map_of_mem _ (List.mem_filter.mpr ⟨hc, hpk⟩)

/-- C9: for a table with at least one primary-key column, the
ordering/bucketing expression of the Full and Bookend builders is the
CONCAT of the primary-key cast expressions, alphabetically sorted (a
sorted permutation of the filtered cast list), referencing every
primary-key column's cast expression, wrapped in MD5 exactly when
`HashPrimaryKeys` is set; and both builders emit it as their ORDER BY
expression. -/
theorem C9_composite_key_ordering (config : Config) (schemaName tableName : String)
    (limit : Int) (columns : List column)
    (_hpk : columns.filter (fun c => c.IsPrimaryKey) ≠ []) :
    (pkCastsSorted config columns).Perm
      ((columns.filter (fun c => c.IsPrimaryKey)).map
        (fun c => c.CastToText config.TimestampPrecision)) ∧
    List.Sorted (fun a b => a ≤ b) (pkCastsSorted config columns) ∧
    (∀ c ∈ columns, c.IsPrimaryKey →
      containsSubstr (primaryColumnConcat config columns)
        (c.CastToText config.TimestampPrecision)) ∧
    primaryColumnConcat config columns =
      (if config.HashPrimaryKeys then
        "MD5(" ++ ("CONCAT(" ++ joinStr ", " (pkCastsSorted config columns) ++ ")") ++ ")"
      else "CONCAT(" ++ joinStr ", " (pkCastsSorted config columns) ++ ")") ∧
    buildFullHashQuery config schemaName tableName columns =
      formatQuery ("\n\t\tSELECT md5(string_agg(hash, ''))\n\t\tFROM (\n\t\t\tSELECT MD5(CONCAT(" ++
        joinStr ", " (castsSorted config columns) ++ ")) AS hash\n\t\t\tFROM \"" ++ schemaName ++
        "\".\"" ++ tableName ++ "\"\n\t\t\tORDER BY " ++ primaryColumnConcat config columns ++
        "\n\t\t) as eachhash\n\t\t") ∧
    buildBookendHashQuery config schemaName tableName columns limit =
      formatQuery ("\n\t\t\t\tSELECT md5(CONCAT(starthash::TEXT, endhash::TEXT))\n\t\t\t\tFROM (\n\t\t\t\t\tSELECT md5(string_agg(hash, ''))\n\t\t\t\t\tFROM (\n\t\t\t\t\t\tSELECT MD5(CONCAT(" ++
        joinStr ", " (castsSorted config columns) ++ ")) AS hash\n\t\t\t\t\t\tFROM \"" ++ schemaName ++ "\".\"" ++
        tableName ++ "\"\n\t\t\t\t\t\tORDER BY " ++ primaryColumnConcat config columns ++
        " ASC\n\t\t\t\t\t\tLIMIT " ++ toString limit ++
        "\n\t\t\t\t\t) AS eachrow\n\t\t\t\t) as starthash, (\n\t\t\t\t\tSELECT md5(string_agg(hash, ''))\n\t\t\t\t\tFROM (\n\t\t\t\t\t\tSELECT MD5(CONCAT(" ++
        joinStr ", " (castsSorted config columns) ++ ")) AS hash\n\t\t\t\t\t\tFROM \"" ++ schemaName ++ "\".\"" ++
        tableName ++ "\"\n\t\t\t\t\t\tORDER BY " ++ primaryColumnConcat config columns ++
        " DESC\n\t\t\t\t\t\tLIMIT " ++ toString limit ++
        "\n\t\t\t\t\t) AS eachrow\n\t\t\t\t) as endhash\n\t\t\t\t") := by
  refine ⟨?_, List.sorted_insertionSort _ _, ?_, rfl, rfl, rfl⟩
  · exact List.perm_insertionSort _ _
  · intro c hc hcpk
    obtain ⟨pre, post, hj⟩ :=
      joinStr_mem_decomp ", " (mem_pkCastsSorted config hc hcpk)
    have hbase : containsSubstr ("CONCAT(" ++ joinStr ", " (pkCastsSorted config columns) ++ ")")
        (c.CastToText config.TimestampPrecision) := by
      rw [hj]
      have : "CONCAT(" ++ (pre ++ c.CastToText config.TimestampPrecision ++ post) ++ ")" =
          ("CONCAT(" ++ pre) ++ c.CastToText config.TimestampPrecision ++ (post ++ ")") := by
        simp [String.append_assoc]
      exact containsSubstr_of_decomp this
    rw [primaryColumnConcat]
    by_cases hflag : config.HashPrimaryKeys
    · simp only [hflag, if_true]
      exact containsSubstr_within "MD5(" ")" hbase
    · simp only [hflag, if_false]
      exact hbase

/-- C9 witness: a concrete two-primary-key-column table, with and without
primary-key hashing exercised through `HashPrimaryKeys := false`. -/
theorem C9_witness :
    ([column.mk "id" "uuid" ["PRIMARY KEY"], column.mk "content" "text" ["PRIMARY KEY"],
        column.mk "when" "timestamp with time zone" []].filter (fun c => c.IsPrimaryKey) ≠ []) ∧
    ((pkCastsSorted (Config.mk [] [] [] [] [] [] [] 0 0 [] "milliseconds" false)
        [column.mk "id" "uuid" ["PRIMARY KEY"], column.mk "content" "text" ["PRIMARY KEY"],
          column.mk "when" "timestamp with time zone" []]).Perm
      (([column.mk "id" "uuid" ["PRIMARY KEY"], column.mk "content" "text" ["PRIMARY KEY"],
          column.mk "when" "timestamp with time zone" []].filter (fun c => c.IsPrimaryKey)).map
        (fun c => c.CastToText (Config.mk [] [] [] [] [] [] [] 0 0 [] "milliseconds" false).TimestampPrecision))) := by
  have h : [column.mk "id" "uuid" ["PRIMARY KEY"], column.mk "content" "text" ["PRIMARY KEY"],
      column.mk "when" "timestamp with time zone" []].filter (fun c => c.IsPrimaryKey) ≠ [] := by decide
  exact ⟨h, (C9_composite_key_ordering (Config.mk [] [] [] [] [] [] [] 0 0 [] "milliseconds" false)
    "s" "t" 5 _ h).1⟩

/-- C7: for a table with at least one primary-key column, the sparse
builder's WHERE clause is the " AND "-conjunction of one membership
condition per primary-key column (sorted by name), each condition
selecting rows whose hashed primary-key value, reduced to a 64-bit
integer, is congruent to 0 modulo the divisor. -/
theorem C7_sparse_where_conjunction (config : Config) (schemaName tableName : String)
    (columns : List column) (sparseMod : Int)
    (_hpk : columns.filter (fun c => c.IsPrimaryKey) ≠ []) :
    (pkNamesSorted columns).Perm
      ((columns.filter (fun c => c.IsPrimaryKey)).map (fun c => c.name)) ∧
    (∀ pkName : String,
      sparseWhenClause schemaName tableName (joinStr ", " (pkCastsSorted config columns))
          sparseMod pkName =
        " " ++ pkName ++ " in (\n\t\t\t\t\tSELECT " ++ pkName ++
          "\n\t\t\t\t\tFROM \"" ++ schemaName ++ "\".\"" ++ tableName ++
          "\"\n\t\t\t\t\tWHERE ('x' || substr(md5(CONCAT(" ++
          joinStr ", " (pkCastsSorted config columns) ++
          ")),1,16))::bit(64)::bigint % " ++ toString sparseMod ++ " = 0\n\t\t\t\t)") ∧
    (∀ c ∈ columns, c.IsPrimaryKey →
      containsSubstr
        (joinStr " AND " ((pkNamesSorted columns).map
          (sparseWhenClause schemaName tableName
            (joinStr ", " (pkCastsSorted config columns)) sparseMod)))
        (sparseWhenClause schemaName tableName
          (joinStr ", " (pkCastsSorted config columns)) sparseMod c.name)) ∧
    buildSparseHashQuery config schemaName tableName columns sparseMod =
      formatQuery ("\n\t\tSELECT md5(string_agg(hash, ''))\n\t\tFROM (\n\t\t\tSELECT MD5(CONCAT(" ++
        joinStr ", " (castsSorted config columns) ++
        ")) AS hash\n\t\t\tFROM \"" ++ schemaName ++ "\".\"" ++ tableName ++
        "\"\n\t\t\tWHERE " ++
        joinStr " AND " ((pkNamesSorted columns).map
          (sparseWhenClause schemaName tableName
            (joinStr ", " (pkCastsSorted config columns)) sparseMod)) ++
        "\n\t\t\tORDER BY " ++ primaryColumnConcat config columns ++
        "\n\t\t) AS eachrow\n\t\t") := by
  refine ⟨List.perm_insertionSort _ _, fun pkName => rfl, ?_, rfl⟩
  intro c hc hcpk
  obtain ⟨pre, post, hj⟩ := joinStr_mem_decomp " AND "
    (List.mem_map_of_mem _ (mem_pkNamesSorted hc hcpk))
  exact containsSubstr_of_decomp hj

/-- C7 witness: a concrete composite-key table. -/
theorem C7_witness :
    ([column.mk "id" "uuid" ["PRIMARY KEY"], column.mk "content" "text" ["PRIMARY KEY"],
        column.mk "when" "timestamp with time zone" []].filter (fun c => c.IsPrimaryKey) ≠ []) ∧
    ((pkNamesSorted [column.mk "id" "uuid" ["PRIMARY KEY"],
        column.mk "content" "text" ["PRIMARY KEY"],
        column.mk "when" "timestamp with time zone" []]).Perm
      (([column.mk "id" "uuid" ["PRIMARY KEY"], column.mk "content" "text" ["PRIMARY KEY"],
          column.mk "when" "timestamp with time zone" []].filter (fun c => c.IsPrimaryKey)).map
        (fun c => c.name))) := by
  have h : [column.mk "id" "uuid" ["PRIMARY KEY"], column.mk "content" "text" ["PRIMARY KEY"],
      column.mk "when" "timestamp with time zone" []].filter (fun c => c.IsPrimaryKey) ≠ [] := by decide
  exact ⟨h, (C7_sparse_where_conjunction (Config.mk [] [] [] [] [] [] [] 0 0 [] "milliseconds" false)
    "testSchema" "testTable" _ 10 h).1⟩

set_option maxRecDepth 10000 in
/-- C4 counterexample: for 3 targets where 2 report "H1" and 1 reports
"H2" for the same cell, `CheckForErrors` returns exactly one divergence
error — but its payload only reports the NUMBER of distinct outputs, not
which outputs mapped to which targets (the text does not even mention
"H1"), and no incompleteness error is emitted for the outputs although
each output's target list is shorter than the target count. -/
theorem C4_counterexample_divergence_payload :
    Results.CheckForErrors (Results.mk ["t1", "t2", "t3"] ["full"]
      [("public", [("t", [("full", [("H1", ["t1", "t2"]), ("H2", ["t3"])])])])]) =
      ["public.t test full has 2 outputs"] ∧
    ¬ containsSubstr "public.t test full has 2 outputs" "H1" ∧
    ¬ containsSubstr "public.t test full has 2 outputs" "H2" := by
  refine ⟨by rfl, by decide, by decide⟩

/-- C4 (amended): `CheckForErrors` collects, without short-circuiting
across cells: for every cell with more than one distinct output, exactly
one divergence error reporting the cell and the number of distinct
outputs (for such cells the per-output incompleteness and error-sentinel
checks are skipped); for every single-output cell, an incompleteness
error per output whose target count differs from the total and a failure
error per error-sentinel output. -/
theorem C4_amended_check_for_errors (r : Results) :
    (∀ st ∈ r.content, ∀ tm ∈ st.2, ∀ mo ∈ tm.2,
      (mo.2.length > 1 →
        divergenceMsg st.1 tm.1 mo.1 mo.2.length ∈ r.CheckForErrors) ∧
      (¬ mo.2.length > 1 → ∀ ot ∈ mo.2,
        (ot.2.length ≠ r.targetNames.length →
          targetCountMsg st.1 tm.1 mo.1 ot.2.length r.targetNames.length ∈ r.CheckForErrors) ∧
        (ot.1 = defaultErrorOutput →
          errorOutputMsg st.1 tm.1 mo.1 ∈ r.CheckForErrors))) ∧
    (∀ (targetNames testModes : List String) (schema table mode : String)
        (outputs : List (String × List String)), outputs.length > 1 →
      Results.CheckForErrors
          (Results.mk targetNames testModes [(schema, [(table, [(mode, outputs)])])]) =
        [divergenceMsg schema table mode outputs.length]) := by
  constructor
  · intro st hst tm htm mo hmo
    constructor
    · intro hlen
      apply List.mem_flatten.mpr
      refine ⟨_, List.mem_map.mpr ⟨st, hst, rfl⟩, ?_⟩
      apply List.mem_flatten.mpr
      refine ⟨_, List.mem_map.mpr ⟨tm, htm, rfl⟩, ?_⟩
      apply List.mem_flatten.mpr
      refine ⟨_, List.mem_map.mpr ⟨mo, hmo, rfl⟩, ?_⟩
      simp only [if_pos hlen]
      exact List.mem_singleton.mpr rfl
    · intro hlen ot hot
      have hmem : ∀ msg : String,
          msg ∈ (if ot.2.length ≠ r.targetNames.length then
              [targetCountMsg st.1 tm.1 mo.1 ot.2.length r.targetNames.length] else []) ++
            (if ot.1 = defaultErrorOutput then [errorOutputMsg st.1 tm.1 mo.1] else []) →
          msg ∈ r.CheckForErrors := by
        intro msg hmsg
        apply List.mem_flatten.mpr
        refine ⟨_, List.mem_map.mpr ⟨st, hst, rfl⟩, ?_⟩
        apply List.mem_flatten.mpr
        refine ⟨_, List.mem_map.mpr ⟨tm, htm, rfl⟩, ?_⟩
        apply List.mem_flatten.mpr
        refine ⟨_, List.mem_map.mpr ⟨mo, hmo, rfl⟩, ?_⟩
        simp only [if_neg hlen]
        apply List.mem_flatten.mpr
        exact ⟨_, List.mem_map.mpr ⟨ot, hot, rfl⟩, hmsg⟩
      constructor
      · intro hcount
        apply hmem
        apply List.mem_append_left
        simp only [if_pos hcount]
        exact List.mem_singleton.mpr rfl
      · intro hsentinel
        apply hmem
        apply List.mem_append_right
        simp only [if_pos hsentinel]
        exact List.mem_singleton.mpr rfl
  · intro targetNames testModes schema table mode outputs hlen
    simp [Results.CheckForErrors, if_pos hlen]

/-- C4 amended witness: the error list of the 3-target divergence scenario
and of a single-output incomplete cell. -/
theorem C4_amended_witness :
    Results.CheckForErrors (Results.mk ["t1", "t2", "t3"] ["full"]
        [("public", [("t", [("full", [("H1", ["t1", "t2"]), ("H2", ["t3"])])])])]) =
      [divergenceMsg "public" "t" "full" 2] :=
  (C4_amended_check_for_errors
      (Results.mk ["t1", "t2", "t3"] ["full"]
        [("public", [("t", [("full", [("H1", ["t1", "t2"]), ("H2", ["t3"])])])])])).2
    ["t1", "t2", "t3"] ["full"] "public" "t" "full"
    [("H1", ["t1", "t2"]), ("H2", ["t3"])] (by decide)

/-- An element of `setA l k v` is an old element or the new binding. -/
theorem mem_setA {β : Type} {l : List (String × β)} {k : String} {v : β} {p : String × β}
    (h : p ∈ setA l k v) : p ∈ l ∨ p = (k, v) := by
  induction l with
  | nil =>
    simp [setA] at h
    exact Or.inr h
  | cons q rest ih =>
    rw [setA] at h
    by_cases hk : q.1 = k
    · simp only [hk, if_true] at h
      rcases List.mem_cons.mp h with rfl | hrest
      · exact Or.inr rfl
      · exact Or.inl (List.mem_cons_of_mem _ hrest)
    · simp only [hk, if_false] at h
      rcases List.mem_cons.mp h with rfl | hrest
      · exact Or.inl (List.mem_cons_self _ _)
      · rcases ih hrest with hl | he
        · exact Or.inl (List.mem_cons_of_mem _ hl)
        · exact Or.inr he

/-- An element of `updateA l k d f` is an old element or the rewritten
binding. -/
theorem mem_updateA {β : Type} {l : List (String × β)} {k : String} {d : β} {f : β → β}
    {p : String × β} (h : p ∈ updateA l k d f) : p ∈ l ∨ p = (k, f (getA l k d)) :=
  mem_setA h

/-- `getA` satisfies any predicate holding for every stored value and for
the default. -/
theorem getA_pred {β : Type} {Q : β → Prop} {l : List (String × β)} {k : String} {d : β}
    (hl : ∀ p ∈ l, Q p.2) (hd : Q d) : Q (getA l k d) := by
  unfold getA lookupA
  cases hfind : l.find? (fun p => p.1 = k) with
  | none => simpa using hd
  | some p =>
    simpa using hl p (List.mem_of_find?_eq_some hfind)

/-- Setting a key that is already present keeps the key list. -/
theorem fst_setA_of_mem {β : Type} {l : List (String × β)} {k : String}
    (h : k ∈ l.map Prod.fst) (v : β) : (setA l k v).map Prod.fst = l.map Prod.fst := by
  induction l with
  | nil => simp at h
  | cons q rest ih =>
    rw [setA]
    by_cases hk : q.1 = k
    · simp [hk]
    · have hkrest : k ∈ rest.map Prod.fst := by
        rcases List.mem_map.mp h with ⟨p, hp, hfst⟩
        rcases List.mem_cons.mp hp with rfl | hprest
        · exact absurd hfst hk
        · exact List.mem_map.mpr ⟨p, hprest, hfst⟩
      simp [hk, ih hkrest]

/-- Setting one key leaves lookups of another key unchanged. -/
theorem lookupA_setA_ne {β : Type} {l : List (String × β)} {k2 k : String} (h : k2 ≠ k)
    (v : β) : lookupA (setA l k2 v) k = lookupA l k := by
  induction l with
  | nil => simp [setA, lookupA, List.find?, h]
  | cons q rest ih =>
    rw [setA]
    by_cases hk : q.1 = k2
    · simp only [hk, if_true]
      simp [lookupA, List.find?, h, hk]
    · simp only [hk, if_false]
      by_cases hqk : q.1 = k
      · simp [lookupA, List.find?, hqk]
      · simp only [lookupA, List.find?, hqk] at ih ⊢
        simpa [hqk] using ih

/-- Looking a present key up in a constant-valued map yields the
constant. -/
theorem lookupA_const_map {l : List String} {m : String} (h : m ∈ l) (v : String) :
    lookupA (l.map (fun x => (x, v))) m = some v := by
  induction l with
  | nil => simp at h
  | cons x xs ih =>
    by_cases hx : x = m
    · simp [lookupA, List.find?, hx]
    · rcases List.mem_cons.mp h with rfl | hxs
      · exact absurd rfl hx
      · have hdec : (decide (x = m)) = false := by simp [hx]
        simp only [List.map_cons, lookupA, List.find?, hdec]
        exact ih hxs

/-- `applyModes` keeps the mode-map key list when every mode it touches is
already a key. -/
theorem applyModes_fst (conn : Conn) (c : Config) (schemaName tableName : String)
    (tableColumns : List columnV1) :
    ∀ (modeList : List String) (modes : List (String × String)),
      (∀ m ∈ modeList, m ∈ modes.map Prod.fst) →
      (applyModes conn c schemaName tableName tableColumns modeList modes).map Prod.fst =
        modes.map Prod.fst := by
  intro modeList
  induction modeList with
  | nil => intro modes _; rfl
  | cons testMode rest ih =>
    intro modes hmem
    rw [applyModes]
    cases conn.queryRow (queryForMode c schemaName tableName tableColumns testMode) with
    | ok value =>
      rw [ih _ ?_]
      · exact fst_setA_of_mem (hmem _ (List.mem_cons_self _ _)) _
      · intro m hm
        rw [fst_setA_of_mem (hmem _ (List.mem_cons_self _ _)) _]
        exact hmem m (List.mem_cons_of_mem _ hm)
    | noRows =>
      rw [ih _ ?_]
      · exact fst_setA_of_mem (hmem _ (List.mem_cons_self _ _)) _
      · intro m hm
        rw [fst_setA_of_mem (hmem _ (List.mem_cons_self _ _)) _]
        exact hmem m (List.mem_cons_of_mem _ hm)
    | fail =>
      exact ih _ (fun m hm => hmem m (List.mem_cons_of_mem _ hm))

/-- A mode whose fingerprint query scan fails is never written by
`applyModes`: its cell keeps its previous value. -/
theorem applyModes_fail_lookup (conn : Conn) (c : Config) (schemaName tableName : String)
    (tableColumns : List columnV1) {m : String}
    (hfail : conn.queryRow (queryForMode c schemaName tableName tableColumns m) =
      ScanResult.fail) :
    ∀ (modeList : List String) (modes : List (String × String)),
      lookupA (applyModes conn c schemaName tableName tableColumns modeList modes) m =
        lookupA modes m := by
  intro modeList
  induction modeList with
  | nil => intro modes; rfl
  | cons testMode rest ih =>
    intro modes
    rw [applyModes]
    by_cases hm : testMode = m
    · subst hm
      rw [hfail]
      exact ih modes
    · cases conn.queryRow (queryForMode c schemaName tableName tableColumns testMode) with
      | ok value => rw [ih _, lookupA_setA_ne hm]
      | noRows => rw [ih _, lookupA_setA_ne hm]
      | fail => exact ih modes

/-- Every table map built by the discovery loop binds exactly the
initialised mode map. -/
theorem fetchRows_init (c : Config) :
    ∀ (rows : List (Except Unit (String × String))) (acc : SingleResult),
      (∀ st ∈ acc, ∀ tm ∈ st.2, tm.2 = initModes c) →
      ∀ st ∈ (fetchRows c rows acc).1, ∀ tm ∈ st.2, tm.2 = initModes c := by
  intro rows
  induction rows with
  | nil => intro acc hacc; exact hacc
  | cons row rest ih =>
    intro acc hacc
    cases row with
    | error e => exact hacc
    | ok st =>
      rw [fetchRows]
      apply ih
      intro st2 hst2 tm htm
      rcases mem_updateA hst2 with hold | hnew
      · exact hacc st2 hold tm htm
      · subst hnew
        simp only at htm
        rcases mem_setA htm with holdt | hnewt
        · have hQ : ∀ tm2 ∈ getA acc st.1 ([] : List (String × List (String × String))),
              tm2.2 = initModes c := by
            refine getA_pred
              (Q := fun (tables : List (String × List (String × String))) =>
                ∀ tm2 ∈ tables, tm2.2 = initModes c) ?_ ?_
            · intro p hp tm2 htm2
              exact hacc p hp tm2 htm2
            · intro tm2 htm2
              simp at htm2
          exact hQ tm holdt
        · subst hnewt
          rfl

/-- The discovery pass initialises every cell to the error sentinel. -/
theorem fetch_initializes (c : Config) (conn : Conn) :
    ∀ st ∈ (fetchTargetTableNames c conn).1, ∀ tm ∈ st.2, tm.2 = initModes c := by
  unfold fetchTargetTableNames
  cases hq : conn.query2 (buildGetTablesQuery c.IncludeSchemas c.ExcludeSchemas
      c.IncludeTables c.ExcludeTables) with
  | error e =>
    intro st hst
    simp at hst
  | ok rows =>
    exact fetchRows_init c rows [] (by intro st hst; simp at hst)

/-- C10: the per-target pass invariant. After discovery every (schema,
table, mode) cell holds the error sentinel; after the query pass every
discovered table's mode map is still total over the configured test-mode
list, and a cell whose column discovery or fingerprint-query scan failed
retains the error sentinel. -/
theorem C10_cells_total_and_error_sentinel_retained (c : Config) (conn : Conn) :
    (∀ st ∈ (fetchTargetTableNames c conn).1, ∀ tm ∈ st.2, tm.2 = initModes c) ∧
    (∀ st ∈ runTestQueriesOnTarget c conn (fetchTargetTableNames c conn).1, ∀ tm ∈ st.2,
      tm.2.map Prod.fst = c.TestModes ∧
      (∀ m ∈ c.TestModes,
        (conn.query3 (buildGetColumsQueryV1 st.1 tm.1) = Except.error () →
          lookupA tm.2 m = some defaultErrorOutput) ∧
        (∀ rows, conn.query3 (buildGetColumsQueryV1 st.1 tm.1) = Except.ok rows →
          conn.queryRow (queryForMode c st.1 tm.1 (parseColumns rows) m) = ScanResult.fail →
          lookupA tm.2 m = some defaultErrorOutput))) := by
  have hinit := fetch_initializes c conn
  refine ⟨hinit, ?_⟩
  intro st2 hst2 tm2 htm2
  rw [runTestQueriesOnTarget] at hst2
  rcases List.mem_map.mp hst2 with ⟨st, hst, hfst⟩
  subst hfst
  simp only at htm2
  rcases List.mem_map.mp htm2 with ⟨tm, htm, hgtm⟩
  have htminit : tm.2 = initModes c := hinit st hst tm htm
  have hkeysAux : ∀ l : List String,
      (l.map (fun testMode => (testMode, defaultErrorOutput))).map Prod.fst = l := by
    intro l
    induction l with
    | nil => rfl
    | cons x xs ih => simp [ih]
  have hkeys : (initModes c).map Prod.fst = c.TestModes := hkeysAux c.TestModes
  cases hq3 : conn.query3 (buildGetColumsQueryV1 st.1 tm.1) with
  | error e =>
    cases e
    rw [hq3] at hgtm
    simp only at hgtm
    subst hgtm
    refine ⟨by rw [htminit]; exact hkeys, ?_⟩
    intro m hm
    constructor
    · intro _
      rw [htminit, initModes]
      exact lookupA_const_map hm defaultErrorOutput
    · intro rows hrows
      rw [hq3] at hrows
      cases hrows
  | ok rows0 =>
    rw [hq3] at hgtm
    simp only at hgtm
    subst hgtm
    constructor
    · simp only
      rw [applyModes_fst conn c st.1 tm.1 (parseColumns rows0) c.TestModes tm.2 ?_]
      · rw [htminit]; exact hkeys
      · intro m hm
        rw [htminit, hkeys]
        exact hm
    · intro m hm
      constructor
      · intro herr
        simp only at herr
        rw [hq3] at herr
        cases herr
      · intro rows hrows hfail
        simp only at hrows
        rw [hq3] at hrows
        injection hrows with hr
        rw [← hr] at hfail
        simp only at hfail ⊢
        rw [applyModes_fail_lookup conn c st.1 tm.1 (parseColumns rows0) hfail c.TestModes tm.2]
        rw [htminit, initModes]
        exact lookupA_const_map hm defaultErrorOutput

/-- When every target carries a connection, the connect loop finds no
failure. -/
theorem findIdx_none_of_all_conn {targets : List TargetModel}
    (h : ∀ t ∈ targets, t.conn.isSome) :
    targets.findIdx? (fun t => t.conn.isNone) = none := by
  induction targets with
  | nil => rfl
  | cons t rest ih =>
    have ht : t.conn.isNone = false := by
      have := h t (List.mem_cons_self _ _)
      cases hc : t.conn with
      | none => rw [hc] at this; cases this
      | some conn => rfl
    simp [List.findIdx?_cons, ht, ih (fun t2 ht2 => h t2 (List.mem_cons_of_mem _ ht2))]

/-- C5: provided validation passes and every target connects, `Verify`
returns the populated merged `Results` in both the success and the
failure case, paired with the combined `CheckForErrors` output exactly
when that output is non-empty: the returned error is nil iff
`CheckForErrors` returns no errors. -/
theorem C5_verify_error_iff_check_errors (c : Config) (targets : List TargetModel)
    (hvalid : c.Validate = none) (hconn : ∀ t ∈ targets, t.conn.isSome) :
    c.Verify targets =
      (some (mergeTargetResults c targets),
        if (mergeTargetResults c targets).CheckForErrors = [] then none
        else some (VError.reports (mergeTargetResults c targets).CheckForErrors)) ∧
    ((c.Verify targets).2 = none ↔ (mergeTargetResults c targets).CheckForErrors = []) := by
  have hfind := findIdx_none_of_all_conn hconn
  have heq : c.Verify targets =
      (if (mergeTargetResults c targets).CheckForErrors.length > 0
        then (some (mergeTargetResults c targets),
          some (VError.reports (mergeTargetResults c targets).CheckForErrors))
        else (some (mergeTargetResults c targets), none)) := by
    rw [Config.Verify, hvalid, hfind]
  by_cases hchk : (mergeTargetResults c targets).CheckForErrors = []
  · have hlen : ¬ (mergeTargetResults c targets).CheckForErrors.length > 0 := by
      rw [hchk]
      simp
    rw [heq, if_neg hlen, if_pos hchk]
    exact ⟨rfl, by simp [hchk]⟩
  · have hlen : (mergeTargetResults c targets).CheckForErrors.length > 0 :=
      List.length_pos.mpr hchk
    rw [heq, if_pos hlen, if_neg hchk]
    exact ⟨rfl, by simp [hchk]⟩

set_option maxRecDepth 10000 in
/-- C5 witness: one target with an empty database verifies cleanly. -/
theorem C5_witness :
    Config.Verify (Config.mk [] [] [] [] [] [] ["full"] 0 0 [] "" false)
        [TargetModel.mk "host1" (some (Conn.mk (fun _ => Except.ok [])
          (fun _ => Except.ok []) (fun _ => ScanResult.fail)))] =
      (some (mergeTargetResults (Config.mk [] [] [] [] [] [] ["full"] 0 0 [] "" false)
          [TargetModel.mk "host1" (some (Conn.mk (fun _ => Except.ok [])
            (fun _ => Except.ok []) (fun _ => ScanResult.fail)))]),
        if (mergeTargetResults (Config.mk [] [] [] [] [] [] ["full"] 0 0 [] "" false)
            [TargetModel.mk "host1" (some (Conn.mk (fun _ => Except.ok [])
              (fun _ => Except.ok []) (fun _ => ScanResult.fail)))]).CheckForErrors = []
        then none
        else some (VError.reports (mergeTargetResults
            (Config.mk [] [] [] [] [] [] ["full"] 0 0 [] "" false)
            [TargetModel.mk "host1" (some (Conn.mk (fun _ => Except.ok [])
              (fun _ => Except.ok []) (fun _ => ScanResult.fail)))]).CheckForErrors)) ∧
    ((Config.Verify (Config.mk [] [] [] [] [] [] ["full"] 0 0 [] "" false)
        [TargetModel.mk "host1" (some (Conn.mk (fun _ => Except.ok [])
          (fun _ => Except.ok []) (fun _ => ScanResult.fail)))]).2 = none ↔
      (mergeTargetResults (Config.mk [] [] [] [] [] [] ["full"] 0 0 [] "" false)
        [TargetModel.mk "host1" (some (Conn.mk (fun _ => Except.ok [])
          (fun _ => Except.ok []) (fun _ => ScanResult.fail)))]).CheckForErrors = []) :=
  C5_verify_error_iff_check_errors _ _ (by rfl)
    (by
      intro t ht
      simp only [List.mem_singleton] at ht
      rw [ht]
      rfl)

set_option maxRecDepth 40000 in
/-- C6: the failing input for the missing primary-key precondition. The
orchestrator pass discovers table public.t whose only column (c, integer)
carries no primary-key constraint, and — contrary to the specified
reject-before-query-construction behaviour — still builds and executes
the sparse fingerprint query: the executed-query list holds the sparse
query built over the zero-primary-key column list, that query text is the
malformed `WHERE  in (` clause with an empty key name, and the table
still contributes a result cell holding the error sentinel. -/
theorem C6_missing_primary_key_not_skipped :
    ((columnV1.mk "c" "integer" "").IsPrimaryKey = false) ∧
    (fetchTargetTableNames (Config.mk [] [] [] [] [] [] ["sparse"] 0 10 [] "" false)
        (Conn.mk (fun _ => Except.ok [Except.ok ("public", "t")])
          (fun _ => Except.ok [Except.ok ("c", "integer", "")])
          (fun _ => ScanResult.fail))).1 =
      [("public", [("t", [("sparse", "(err)")])])] ∧
    fingerprintQueriesRun (Config.mk [] [] [] [] [] [] ["sparse"] 0 10 [] "" false)
        (Conn.mk (fun _ => Except.ok [Except.ok ("public", "t")])
          (fun _ => Except.ok [Except.ok ("c", "integer", "")])
          (fun _ => ScanResult.fail))
        (fetchTargetTableNames (Config.mk [] [] [] [] [] [] ["sparse"] 0 10 [] "" false)
          (Conn.mk (fun _ => Except.ok [Except.ok ("public", "t")])
            (fun _ => Except.ok [Except.ok ("c", "integer", "")])
            (fun _ => ScanResult.fail))).1 =
      [buildSparseHashQueryV1 "public" "t" [columnV1.mk "c" "integer" ""] 10] ∧
    containsSubstr (buildSparseHashQueryV1 "public" "t" [columnV1.mk "c" "integer" ""] 10)
      "WHERE  in (" ∧
    runTestQueriesOnTarget (Config.mk [] [] [] [] [] [] ["sparse"] 0 10 [] "" false)
        (Conn.mk (fun _ => Except.ok [Except.ok ("public", "t")])
          (fun _ => Except.ok [Except.ok ("c", "integer", "")])
          (fun _ => ScanResult.fail))
        (fetchTargetTableNames (Config.mk [] [] [] [] [] [] ["sparse"] 0 10 [] "" false)
          (Conn.mk (fun _ => Except.ok [Except.ok ("public", "t")])
            (fun _ => Except.ok [Except.ok ("c", "integer", "")])
            (fun _ => ScanResult.fail))).1 =
      [("public", [("t", [("sparse", "(err)")])])] := by
  refine ⟨rfl, rfl, rfl, by decide, rfl⟩

end Pgverify
